import Mathlib

/-!
# PauseBuy — verification of the detection / interception core

A shallow embedding of the PauseBuy browser extension's purchase-intent
detection pipeline and its background session coordinator, together with
theorems checking the natural-language specification against the code.

Embedding conventions:
* DOM text, URLs and page titles are embedded as `String` / `List Char`.
* The case-insensitive regular expressions of the source are fixed
  whitespace-gapped literal patterns (`/buy\s*now/i`, …); they are embedded
  as lists of lowercase literal tokens joined by arbitrary whitespace, with
  alternation for the one optional group (`/place\s*(your\s*)?order/i`).
* A page is embedded as the results the source's `querySelector` calls
  would return on it (one entry per selector, in the source's order).
* `Date.now()` and `new Date().getHours()` are passed in as explicit
  parameters; `crypto.randomUUID()` results and the `Math.random`-driven
  shuffle are passed in as parameters as well.
* JS numbers holding prices and savings are embedded as `ℚ`;
  hour-of-day, confidence scores and millisecond timestamps as `ℕ`.
-/

namespace PauseBuy

/-! ## Character and string helpers -/

/-- Whitespace as matched by the regexes' `\s` class. -/
def isWsChar (c : Char) : Bool :=
  c = ' ' || c = '\t' || c = '\n' || c = '\r' || c = '\x0c' || c = '\x0b'

/-- Lowercase a string into its character list (models `toLowerCase` /
the `/i` regex flag on the ASCII alphabet the patterns use). -/
def lowerChars (s : String) : List Char := s.data.map Char.toLower

/-- `String.prototype.trim()` on a character list. -/
def trimChars (cs : List Char) : List Char :=
  ((cs.dropWhile isWsChar).reverse.dropWhile isWsChar).reverse

/-- Does `p` occur as a leading segment of `cs`? -/
def leadsWith : List Char → List Char → Bool
  | [], _ => true
  | _ :: _, [] => false
  | p :: ps, c :: cs => p = c && leadsWith ps cs

/-- Substring containment (models JS `String.prototype.includes`). -/
def containsSub (needle cs : List Char) : Bool :=
  cs.tails.any (fun t => leadsWith needle t)

/-! ## Pattern language for the source's regexes

Each source regex is a list of alternatives; an alternative is a list of
literal tokens separated by `\s*`.  A pattern *tests* true on a text when
some alternative matches at some position of the lowercased text. -/

/-- One alternative (`["buy", "now"]` stands for `buy\s*now`) matching at
the head of the text. -/
def altMatchesAt : List String → List Char → Bool
  | [], _ => true
  | [t], cs => leadsWith t.data cs
  | t :: ts, cs =>
      leadsWith t.data cs &&
        altMatchesAt ts ((cs.drop t.data.length).dropWhile isWsChar)

/-- A pattern: alternatives of whitespace-gapped literal token sequences. -/
structure Pat where
  alts : List (List String)
deriving Repr, DecidableEq

/-- `pat.test(text)` for the embedded pattern language: some alternative
matches at some position of the (already lowercased) text. -/
def patTest (p : Pat) (text : List Char) : Bool :=
  text.tails.any (fun t => p.alts.any (fun a => altMatchesAt a t))

/-! ## Scoring Engine constants (content script) -/

/-- `CHECKOUT_URL_PATTERNS` from the content script. -/
def CHECKOUT_URL_PATTERNS : List Pat :=
  [⟨[["/checkout"]]⟩, ⟨[["/cart"]]⟩, ⟨[["/payment"]]⟩, ⟨[["/buy"]]⟩,
   ⟨[["/order"]]⟩, ⟨[["/gp/buy"]]⟩, ⟨[["/gp/cart"]]⟩]

/-- `PURCHASE_BUTTON_PATTERNS` from the content script
(`/place\s*(your\s*)?order/i` contributes two alternatives). -/
def PURCHASE_BUTTON_PATTERNS : List Pat :=
  [⟨[["buy", "now"]]⟩,
   ⟨[["add", "to", "cart"]]⟩,
   ⟨[["place", "order"], ["place", "your", "order"]]⟩,
   ⟨[["checkout"]]⟩,
   ⟨[["pay", "now"]]⟩,
   ⟨[["complete", "purchase"]]⟩,
   ⟨[["submit", "order"]]⟩,
   ⟨[["proceed", "to", "checkout"]]⟩,
   ⟨[["confirm", "order"]]⟩]

/-! ## Page model

A page is embedded as what the source's DOM queries would return on it. -/

/-- An interactive element as seen by the detector: its `textContent`,
its `value`, its `aria-label`, and its bounding-client-rect size. -/
structure Btn where
  textContent : String
  value : String
  ariaLabel : String
  width : Nat
  height : Nat
deriving Repr, DecidableEq

/-- Result of one `querySelector` for a price element: the element's
`textContent` and its `data-price-amount` / `data-price` / `content`
attributes (`none` = element absent or attribute absent). -/
structure PriceEl where
  textContent : Option String
  dataPriceAmount : Option String
  dataPrice : Option String
  content : Option String
deriving Repr, DecidableEq

/-- A page state, embedded as the source's query results on it.
`buttons` is the result of the scoring query
(`button, input[type='submit'], a[role='button']`);
`extraRoleButtons` are the extra elements the wider shield query
(`… , [role='button']`) also returns.
`nameSelTexts` / `priceSelEls` / `imageSelSrcs` hold one entry per entry
of the source's `nameSelectors` / `priceSelectors` / `imageSelectors`
lists, in order (`none` = `querySelector` returned no element). -/
structure Page where
  url : String
  host : String
  title : String
  buttons : List Btn
  extraRoleButtons : List Btn
  hasPriceEl : Bool
  hasCardInput : Bool
  hasOrderSummary : Bool
  nameSelTexts : List (Option String)
  priceSelEls : List (Option PriceEl)
  imageSelSrcs : List (Option String)
deriving Repr, DecidableEq

/-! ## Scoring Engine (content script `getUrlScore` / `getButtonScore` /
`getDomScore`) -/

/-- `getUrlScore`: 30 if any checkout URL pattern tests true on the
lowercased URL, else 0. -/
def getUrlScore (pg : Page) : Nat :=
  if CHECKOUT_URL_PATTERNS.any (fun p => patTest p (lowerChars pg.url))
  then 30 else 0

/-- The detector's text for a button:
`textContent?.trim() || value || aria-label || ""`. -/
def btnText (b : Btn) : String :=
  if (trimChars b.textContent.data) ≠ [] then ⟨trimChars b.textContent.data⟩
  else if b.value ≠ "" then b.value
  else b.ariaLabel

/-- `isPurchaseButton`: some purchase phrase tests true on the button text. -/
def isPurchaseButton (b : Btn) : Bool :=
  PURCHASE_BUTTON_PATTERNS.any (fun p => patTest p (lowerChars (btnText b)))

/-- `getButtonScore`: 40 if any queried element is a purchase button,
else 0. -/
def getButtonScore (pg : Page) : Nat :=
  if pg.buttons.any isPurchaseButton then 40 else 0

/-- `getDomScore`: +10 price element, +15 payment-card input,
+5 order-summary container, capped with `Math.min(score, 30)`. -/
def getDomScore (pg : Page) : Nat :=
  min ((if pg.hasPriceEl then 10 else 0) +
       (if pg.hasCardInput then 15 else 0) +
       (if pg.hasOrderSummary then 5 else 0)) 30

/-- The total confidence score computed by `autoDetectPurchaseIntent`. -/
def totalScore (pg : Page) : Nat :=
  getUrlScore pg + getButtonScore pg + getDomScore pg

end PauseBuy

namespace PauseBuy

/-! ## Detection Controller state (content script module-level state) -/

/-- The content script's module-level mutable state.  Buttons are
identified by their index in the page's combined clickable list;
`shields` is the key set of the `shieldedButtons` map in insertion
order; `proceedUntil` is the session-storage suppression key. -/
structure DetState where
  handledUrl : Option String
  overlayActive : Bool
  pendingButton : Option Nat
  shields : List Nat
  proceedUntil : Option Nat
  lastAutoDetection : Nat
deriving Repr, DecidableEq

/-- The content script's initial state. -/
def initDetState : DetState :=
  { handledUrl := none, overlayActive := false, pendingButton := none,
    shields := [], proceedUntil := none, lastAutoDetection := 0 }

/-- `SUPPRESSION_MS` (30 seconds). -/
def SUPPRESSION_MS : Nat := 30000

/-- `AUTO_DETECT_DEBOUNCE_MS` (2 seconds). -/
def AUTO_DETECT_DEBOUNCE_MS : Nat := 2000

/-- `isSuppressed()`: the stored `proceedUntil` exists and
`Date.now() < proceedUntil`. -/
def isSuppressed (s : DetState) (now : Nat) : Bool :=
  match s.proceedUntil with
  | some t => now < t
  | none => false

/-- `setSuppression()`: store `proceedUntil := Date.now() + SUPPRESSION_MS`. -/
def setSuppression (s : DetState) (now : Nat) : DetState :=
  { s with proceedUntil := some (now + SUPPRESSION_MS) }

/-- A `PURCHASE_DETECTED` message sent by the content script. -/
structure DetectionMsg where
  site : String
  confidence : Nat
deriving Repr, DecidableEq

/-- `window.location.hostname` of a page. -/
def pageSite (pg : Page) : String := pg.host

/-- `autoDetectPurchaseIntent()`: the early returns (handled URL,
suppression, debounce) followed by the `totalScore ≥ 60` trigger.  The
returned `Option DetectionMsg` is the message sent (if any); sending
updates `lastAutoDetection`. -/
def autoDetectPurchaseIntent (s : DetState) (pg : Page) (now : Nat) :
    Option DetectionMsg × DetState :=
  if s.handledUrl = some pg.url then (none, s)
  else if isSuppressed s now then (none, s)
  else if now - s.lastAutoDetection < AUTO_DETECT_DEBOUNCE_MS then (none, s)
  else if 60 ≤ totalScore pg then
    (some ⟨pageSite pg, totalScore pg⟩, { s with lastAutoDetection := now })
  else (none, s)

/-! ## Shield Manager (content script) -/

/-- The combined result of the shield query
(`button, input[type='submit'], a[role='button'], [role='button']`). -/
def clickables (pg : Page) : List Btn := pg.buttons ++ pg.extraRoleButtons

/-- `findPurchaseButtons()`: all queried clickables whose text matches a
purchase phrase, tagged with their index (the embedding's element
identity). -/
def findPurchaseButtons (pg : Page) : List (Nat × Btn) :=
  (clickables pg).enum.filter (fun ib => isPurchaseButton ib.2)

/-- `rect.width === 0 || rect.height === 0`: the not-visible test. -/
def zeroRect (b : Btn) : Bool := b.width = 0 || b.height = 0

/-- The loop body of `shieldPurchaseButtons`: an already-shielded button
is only position-updated (registry unchanged); a zero-width or
zero-height button is skipped; otherwise a shield is created and
registered. -/
def shieldLoop (acc : List Nat) : List (Nat × Btn) → List Nat
  | [] => acc
  | (i, b) :: rest =>
      if i ∈ acc then shieldLoop acc rest
      else if zeroRect b then shieldLoop acc rest
      else shieldLoop (acc ++ [i]) rest

/-- `shieldPurchaseButtons()`: no-op on a handled URL, else the loop over
`findPurchaseButtons()`. -/
def shieldPurchaseButtons (s : DetState) (pg : Page) : DetState :=
  if s.handledUrl = some pg.url then s
  else { s with shields := shieldLoop s.shields (findPurchaseButtons pg) }

/-- What a click on a shield does. -/
inductive ClickResult where
  /-- `overlayActive || handledUrl === location.href`: nothing happens. -/
  | ignored
  /-- suppression active: shields removed, underlying button clicked. -/
  | passThrough
  /-- `handleShieldClick`: a `PURCHASE_DETECTED` message is sent. -/
  | sent (msg : DetectionMsg)
deriving Repr, DecidableEq

/-- The shield's click handler (`createShield` listener +
`handleShieldClick`): guard on `overlayActive` / `handledUrl`, then the
suppression pass-through, else remember the pending button and send a
`PURCHASE_DETECTED` with confidence 100. -/
def shieldClick (s : DetState) (pg : Page) (btn : Nat) (now : Nat) :
    ClickResult × DetState :=
  if s.overlayActive || s.handledUrl = some pg.url then (.ignored, s)
  else if isSuppressed s now then (.passThrough, { s with shields := [] })
  else (.sent ⟨pageSite pg, 100⟩, { s with pendingButton := some btn })

/-- `handleShieldClick`'s response continuation: blocked marks the URL
handled; unblocked removes shields, clicks through and clears the
pending button. -/
def handleShieldResponse (s : DetState) (pg : Page) (blocked : Bool) :
    DetState :=
  if blocked then { s with handledUrl := some pg.url }
  else { s with shields := [], pendingButton := none }

/-- `autoDetectPurchaseIntent`'s response continuation: blocked marks the
URL handled. -/
def handleAutoResponse (s : DetState) (pg : Page) (blocked : Bool) :
    DetState :=
  if blocked then { s with handledUrl := some pg.url } else s

/-! ## Content-script message listener and URL poller -/

/-- `SHOW_OVERLAY` branch of the `onMessage` listener. -/
def onShowOverlay (s : DetState) : DetState := { s with overlayActive := true }

/-- `PROCEED_WITH_PURCHASE` branch: overlay off, suppression recorded,
shields removed, URL marked handled, pending button clicked and
cleared. -/
def onProceedWithPurchase (s : DetState) (url : String) (now : Nat) :
    DetState :=
  { setSuppression s now with
      overlayActive := false, shields := [], handledUrl := some url,
      pendingButton := none }

/-- `RESET_DETECTION` branch: overlay off, shields removed, URL marked
handled, pending button cleared. -/
def onResetDetection (s : DetState) (url : String) : DetState :=
  { s with overlayActive := false, shields := [], handledUrl := some url,
           pendingButton := none }

/-- The URL-change poller body (before it re-runs detection/shielding):
reset `handledUrl` and remove all shields. -/
def onUrlChange (s : DetState) : DetState :=
  { s with handledUrl := none, shields := [] }

/-! ## Background coordinator data model -/

/-- Outcome of a pending purchase event. -/
inductive Outcome where
  | pending | bought | saved | cooled_off
deriving Repr, DecidableEq

/-- Risk classification level. -/
inductive Risk where
  | low | medium | high
deriving Repr, DecidableEq

/-- Time-of-day category (`getTimeOfDay` buckets). -/
inductive TimeOfDay where
  | morning | afternoon | evening | night | late_night
deriving Repr, DecidableEq

/-- `getTimeOfDay`: hour-of-day bucketing shared by the extension and the
proxy (`lib/openai` / `lib/claude` and the client module agree on it). -/
def getTimeOfDay (hour : Nat) : TimeOfDay :=
  if 5 ≤ hour ∧ hour < 12 then .morning
  else if 12 ≤ hour ∧ hour < 17 then .afternoon
  else if 17 ≤ hour ∧ hour < 21 then .evening
  else if 21 ≤ hour ∧ hour < 23 then .night
  else .late_night

/-- Product info carried in messages (price as `ℚ` for JS numbers). -/
structure Product where
  name : String
  price : ℚ
  category : String
  url : String
deriving Repr, DecidableEq

/-- Goal impact summary returned to the page (detail fields of the
calculator are out of the claims' scope). -/
structure GoalImpact where
  goalName : String
  delayDays : Int
  message : String
deriving Repr, DecidableEq

/-- `meta` envelope of a reflection response. -/
structure RespMeta where
  clientId : String
  timestamp : String
  source : String
  error : Option String
deriving Repr, DecidableEq

/-- A reflection response (`ReflectionResponse` in the client module). -/
structure ReflectionResponse where
  questions : List String
  goalImpact : Option GoalImpact
  riskLevel : Risk
  meta : Option RespMeta
deriving Repr, DecidableEq

/-- Reflection context built by `callProxyAPI`. -/
structure ReflectionContext where
  timeOfDay : TimeOfDay
  goalName : Option String
  recentPurchaseCount : Nat
  frictionLevel : Nat
deriving Repr, DecidableEq

/-! ## Reflection Client (`lib/api` client proxy module) -/

/-- `FALLBACK_QUESTIONS`: the fixed pool of 5 fallback questions. -/
def FALLBACK_QUESTIONS : List String :=
  ["Do you need this right now, or can it wait a few days?",
   "How will you feel about this purchase in a week?",
   "Is this aligned with your current financial goals?",
   "Would you still want this if there was no sale?",
   "Do you already own something that serves this purpose?"]

/-- `getRandomFallbackQuestions(count)`: the source shuffles a copy of
the pool with `sort(() => Math.random() - 0.5)` and takes the first
`count`; the randomness is embedded as the `shuffled` argument, an
arbitrary permutation of the pool. -/
def getRandomFallbackQuestions (shuffled : List String) (count : Nat) :
    List String :=
  shuffled.take count

/-- `determineLocalRiskLevel(product, context)` from the client module:
late-night/night, recent purchases and price contribute; note the source
has no friction-level term here. -/
def determineLocalRiskLevel (product : Product) (ctx : ReflectionContext) :
    Risk :=
  let score : Nat :=
    (if ctx.timeOfDay = .late_night then 2
     else if ctx.timeOfDay = .night then 1 else 0) +
    (if ctx.recentPurchaseCount > 3 then 2
     else if ctx.recentPurchaseCount > 1 then 1 else 0) +
    (if product.price > 200 then 2
     else if product.price > 50 then 1 else 0)
  if score ≥ 4 then .high
  else if score ≥ 2 then .medium
  else .low

/-- `determineRiskLevel(request)` from the proxy's local server: same
terms plus `frictionLevel >= 4` adding 1.  The server derives the
time-of-day category with `getTimeOfDay(context.localDateTime)`; the
embedding takes the resulting category directly. -/
def determineRiskLevel (product : Product) (timeOfDay : TimeOfDay)
    (recentPurchaseCount frictionLevel : Nat) : Risk :=
  let riskScore : Nat :=
    (if timeOfDay = .late_night then 2
     else if timeOfDay = .night then 1 else 0) +
    (if recentPurchaseCount > 3 then 2
     else if recentPurchaseCount > 1 then 1 else 0) +
    (if frictionLevel ≥ 4 then 1 else 0) +
    (if product.price > 200 then 2
     else if product.price > 50 then 1 else 0)
  if riskScore ≥ 4 then .high
  else if riskScore ≥ 2 then .medium
  else .low

/-- `createFallbackResponse(product, context, goals, error?)`.  The call
to the goal-impact calculator (date arithmetic, outside the claims'
scope) is threaded as its already-computed value `impact`; the shuffle
and the ISO timestamp are threaded as `shuffled` / `nowIso`. -/
def createFallbackResponse (product : Product) (ctx : ReflectionContext)
    (impact : Option GoalImpact) (shuffled : List String) (nowIso : String)
    (error : Option String) : ReflectionResponse :=
  let questionCount := if ctx.frictionLevel ≥ 4 then 3 else 2
  { questions := getRandomFallbackQuestions shuffled questionCount
    goalImpact := impact
    riskLevel := determineLocalRiskLevel product ctx
    meta := some ⟨"local", nowIso, "fallback", error⟩ }

/-- The observable outcome of the `fetch` inside `callProxyAPI`: a thrown
network error, or an HTTP status together with the body-parse result
(`.error` models `response.json()` throwing). -/
inductive FetchOutcome where
  | netError (msg : String)
  | http (status : Nat) (body : Except String ReflectionResponse)
deriving Repr

/-- Does the fetch outcome take one of `callProxyAPI`'s failure paths? -/
def isFetchFailure : FetchOutcome → Bool
  | .netError _ => true
  | .http status body =>
      status == 429 || !(200 ≤ status && status ≤ 299) ||
        (match body with | .error _ => true | .ok _ => false)

/-- `callProxyAPI`: the 429 branch, the `!response.ok` branch, the parsed
success body, and the catch-all network-error branch.  (The rate-limit
bookkeeping writes to storage are outside the claims' scope and carry no
information into the returned response.) -/
def callProxyAPI (product : Product) (ctx : ReflectionContext)
    (impact : Option GoalImpact) (shuffled : List String) (nowIso : String)
    (fetch : FetchOutcome) : ReflectionResponse :=
  match fetch with
  | .netError m =>
      createFallbackResponse product ctx impact shuffled nowIso (some m)
  | .http status body =>
      if status == 429 then
        createFallbackResponse product ctx impact shuffled nowIso
          (some "rate_limit_exceeded")
      else if !(200 ≤ status && status ≤ 299) then
        createFallbackResponse product ctx impact shuffled nowIso
          (some ("api_error_" ++ toString status))
      else
        match body with
        | .ok data => data
        | .error m =>
            createFallbackResponse product ctx impact shuffled nowIso (some m)

/-! ## Session Coordinator (background `handlePurchaseDetected` /
`handlePurchaseOutcome`) -/

/-- User settings read by the coordinator. -/
structure Settings where
  frictionLevel : Nat
  enabledSites : List String
  quietHours : Option (Nat × Nat)
  notifications : Bool
deriving Repr, DecidableEq

/-- An entry of `purchaseHistory`.  Fields absent on the orphan records
created by the outcome fallback are `Option`s. -/
structure HistEvent where
  id : String
  eventId : String
  product : Option Product
  site : Option String
  confidence : Option Nat
  timestampIso : String
  riskLevel : Option Risk
  questionsAsked : List String
  reflectionTime : Nat
  outcome : Outcome
  source : Option String
deriving Repr, DecidableEq

/-- The running savings counters. -/
structure Stats where
  savedToday : ℚ
  savedTotal : ℚ
  streak : Nat
deriving Repr, DecidableEq

/-- The background coordinator's stored state. -/
structure BgState where
  enabled : Bool
  settings : Option Settings
  purchaseHistory : List HistEvent
  stats : Stats
deriving Repr, DecidableEq

/-- A `PURCHASE_DETECTED` message as the coordinator receives it. -/
structure PurchaseDetectedMessage where
  product : Product
  site : String
  confidence : Nat
deriving Repr, DecidableEq

/-- The coordinator's response to a `PURCHASE_DETECTED` message. -/
structure DetectResponse where
  blocked : Bool
  reason : Option String
  eventId : Option String
  questions : Option (List String)
  goalImpact : Option GoalImpact
  riskLevel : Option Risk
deriving Repr, DecidableEq

/-- A response with `blocked: false` and a reason code. -/
def notBlocked (reason : String) : DetectResponse :=
  { blocked := false, reason := some reason, eventId := none,
    questions := none, goalImpact := none, riskLevel := none }

/-- The quiet-hours test of `handlePurchaseDetected`, including the
wraparound case `start > end`. -/
def inQuietHours (start stop currentHour : Nat) : Bool :=
  (start ≤ stop && start ≤ currentHour && currentHour < stop) ||
  (start > stop && (currentHour ≥ start || currentHour < stop))

/-- The quiet-hours guard of `handlePurchaseDetected`
(`settings?.quietHours` present and the current hour inside it). -/
def quietHoursActive (st : BgState) (currentHour : Nat) : Bool :=
  match st.settings with
  | some s =>
      match s.quietHours with
      | some (start, stop) => inQuietHours start stop currentHour
      | none => false
  | none => false

/-- The site guard of `handlePurchaseDetected`: a non-empty
`enabledSites` list with no entry occurring as a substring of the
message's site. -/
def siteNotEnabledGuard (st : BgState) (site : String) : Bool :=
  match st.settings with
  | some s =>
      decide (0 < s.enabledSites.length) &&
        !s.enabledSites.any (fun sub => containsSub sub.data site.data)
  | none => false

/-- The `PendingPurchaseEvent` pushed onto `purchaseHistory` when all
policy checks pass (`outcome: "pending"`, `reflectionTime: 0`,
`source: response.meta?.source || "unknown"`). -/
def pendingEvent (msg : PurchaseDetectedMessage) (newId : String)
    (resp : ReflectionResponse) (nowIso : String) : HistEvent :=
  { id := newId, eventId := newId, product := some msg.product,
    site := some msg.site, confidence := some msg.confidence,
    timestampIso := nowIso, riskLevel := some resp.riskLevel,
    questionsAsked := resp.questions, reflectionTime := 0,
    outcome := .pending,
    source := some (match resp.meta with
                    | some m => if m.source ≠ "" then m.source else "unknown"
                    | none => "unknown") }

/-- `handlePurchaseDetected(message)`.  `currentHour` embeds
`new Date().getHours()`, `newId` the `crypto.randomUUID()` result,
`resp` the reflection client's result and `nowIso` the stored
timestamp. -/
def handlePurchaseDetected (st : BgState) (msg : PurchaseDetectedMessage)
    (currentHour : Nat) (newId : String) (resp : ReflectionResponse)
    (nowIso : String) : DetectResponse × BgState :=
  if !st.enabled then (notBlocked "extension_disabled", st)
  else
    if quietHoursActive st currentHour then (notBlocked "quiet_hours", st)
    else
      if siteNotEnabledGuard st msg.site then (notBlocked "site_not_enabled", st)
      else if msg.confidence < 50 then (notBlocked "low_confidence", st)
      else
        ({ blocked := true, reason := none, eventId := some newId,
           questions := some resp.questions, goalImpact := resp.goalImpact,
           riskLevel := some resp.riskLevel },
         { st with purchaseHistory :=
             st.purchaseHistory ++ [pendingEvent msg newId resp nowIso] })

/-- A `PURCHASE_OUTCOME` message. -/
structure OutcomeMessage where
  eventId : String
  outcome : Outcome
  reflectionTime : Nat
deriving Repr, DecidableEq

/-- The `findIndex` + in-place mutation of `handlePurchaseOutcome`:
update the first history entry whose `eventId` or `id` matches, and
report its `product?.price || 0`; `none` = not found. -/
def resolveFirst (msg : OutcomeMessage) :
    List HistEvent → Option ℚ × List HistEvent
  | [] => (none, [])
  | e :: rest =>
      if e.eventId = msg.eventId || e.id = msg.eventId then
        (some ((e.product.map Product.price).getD 0),
         { e with outcome := msg.outcome,
                  reflectionTime := msg.reflectionTime } :: rest)
      else
        let (a, r) := resolveFirst msg rest
        (a, e :: r)

/-- `handlePurchaseOutcome(message)`: update the matching event (or
append an orphan record), then credit `savedAmount` to the counters when
the outcome is `saved` or `cooled_off`.  Returns the `savedAmount` of
the `{success: true, savedAmount}` response. -/
def handlePurchaseOutcome (st : BgState) (msg : OutcomeMessage)
    (nowIso : String) : ℚ × BgState :=
  let found := resolveFirst msg st.purchaseHistory
  let savedAmount : ℚ := found.1.getD 0
  let hist :=
    match found.1 with
    | some _ => found.2
    | none =>
        found.2 ++
          [{ id := msg.eventId, eventId := msg.eventId, product := none,
             site := none, confidence := none, timestampIso := nowIso,
             riskLevel := none, questionsAsked := [], outcome := msg.outcome,
             reflectionTime := msg.reflectionTime, source := none }]
  let stats :=
    if msg.outcome = .saved ∨ msg.outcome = .cooled_off then
      { st.stats with savedToday := st.stats.savedToday + savedAmount,
                      savedTotal := st.stats.savedTotal + savedAmount }
    else st.stats
  (savedAmount, { st with purchaseHistory := hist, stats := stats })

/-! ## Product Extractor (content script `extractProductInfo`) -/

/-- The name-selector loop: first selector whose trimmed `textContent`
has length strictly greater than 1 and strictly less than 300. -/
def firstSelName : List (Option String) → Option (List Char)
  | [] => none
  | r :: rs =>
      match r with
      | some raw =>
          let t := trimChars raw.data
          if 1 < t.length ∧ t.length < 300 then some t else firstSelName rs
      | none => firstSelName rs

/-- The separator class of the title-cleaning regex
`/\s*[-|–—:].*$/`. -/
def TITLE_SEP_CHARS : List Char := ['-', '|', '–', '—', ':']

/-- `document.title.replace(/\s*[-|–—:].*$/, "").trim() ||
"Unknown Product"`: cut at the first separator character, trim, default
to the sentinel.  (The embedding assumes the title contains no newline,
where the non-`/s` dot of the regex would behave differently.) -/
def cleanTitle (title : String) : List Char :=
  let cut := title.data.takeWhile (fun c => !TITLE_SEP_CHARS.contains c)
  let t := trimChars cut
  if t = [] then "Unknown Product".data else t

/-- `\d` or `,`: the character class of `/[\d,]+\.?\d*/`. -/
def isDigitOrComma (c : Char) : Bool := c.isDigit || c = ','

/-- The greedy match of `/[\d,]+\.?\d*/` anchored at the current
position (a digit-or-comma run, an optional dot, a digit run). -/
def numRunAt (cs : List Char) : List Char :=
  let run1 := cs.takeWhile isDigitOrComma
  match cs.drop run1.length with
  | '.' :: rest2 => run1 ++ '.' :: rest2.takeWhile Char.isDigit
  | _ => run1

/-- `text.match(/[\d,]+\.?\d*/)?.[0]`: the leftmost match. -/
def extractNum : List Char → Option (List Char)
  | [] => none
  | c :: cs =>
      if isDigitOrComma c then some (numRunAt (c :: cs)) else extractNum cs

/-- `match.replace(",", "")`: JS `replace` with a string pattern removes
only the FIRST comma. -/
def removeFirstComma : List Char → List Char
  | [] => []
  | c :: cs => if c = ',' then cs else c :: removeFirstComma cs

/-- Digit-run value. -/
def digitsToNat (cs : List Char) : Nat :=
  cs.foldl (fun acc c => acc * 10 + (c.toNat - 48)) 0

/-- `parseFloat` restricted to the digit/comma/dot alphabet its inputs
here come from: a leading digit run, an optional dot and digit run;
`none` models `NaN` (no digits before the parse stops). -/
def parseFloatQ (cs : List Char) : Option ℚ :=
  let intPart := cs.takeWhile Char.isDigit
  let fracPart :=
    match cs.drop intPart.length with
    | '.' :: r => r.takeWhile Char.isDigit
    | _ => []
  if intPart = [] ∧ fracPart = [] then none
  else some ((digitsToNat intPart : ℚ) +
             (digitsToNat fracPart : ℚ) / (10 : ℚ) ^ fracPart.length)

/-- `el?.textContent || el?.getAttribute("data-price-amount") ||
el?.getAttribute("data-price") || el?.getAttribute("content") || ""`:
first truthy (present and non-empty) candidate. -/
def priceElText (el : Option PriceEl) : String :=
  let truthy : Option String → Option String := fun o =>
    match o with
    | some s => if s ≠ "" then some s else none
    | none => none
  match el with
  | none => ""
  | some e =>
      match truthy e.textContent with
      | some s => s
      | none =>
          match truthy e.dataPriceAmount with
          | some s => s
          | none =>
              match truthy e.dataPrice with
              | some s => s
              | none =>
                  match truthy e.content with
                  | some s => s
                  | none => ""

/-- The price-selector loop: first selector whose candidate text yields
a regex match parsing (first comma removed) to a strictly positive
value; `0` when none does. -/
def firstSelPrice : List (Option PriceEl) → ℚ
  | [] => 0
  | el :: rest =>
      match extractNum (priceElText el).data with
      | some m =>
          match parseFloatQ (removeFirstComma m) with
          | some v => if 0 < v then v else firstSelPrice rest
          | none => firstSelPrice rest
      | none => firstSelPrice rest

/-- The image-selector loop: first selector whose element has a truthy
`src`. -/
def firstSelImage : List (Option String) → Option String
  | [] => none
  | r :: rs =>
      match r with
      | some s => if s ≠ "" then some s else firstSelImage rs
      | none => firstSelImage rs

/-- The extractor's result. -/
structure PIResult where
  name : List Char
  price : ℚ
  category : String
  url : String
  image : Option String
deriving Repr, DecidableEq

/-- `extractProductInfo()`: name (selector loop, title fallback,
sentinel, `slice(0, 200)`), price (selector loop, default 0), constant
category, page URL, image (selector loop). -/
def extractProductInfo (pg : Page) : PIResult :=
  { name := ((firstSelName pg.nameSelTexts).getD (cleanTitle pg.title)).take 200
    price := firstSelPrice pg.priceSelEls
    category := "general"
    url := pg.url
    image := firstSelImage pg.imageSelSrcs }

/-- A page showing every signal class. -/
def pageAllSignals : Page :=
  { url := "https://www.amazon.com/gp/buy/spc/handlers/checkout"
    host := "www.amazon.com"
    title := "Checkout"
    buttons := [⟨"Buy Now", "", "", 120, 40⟩]
    extraRoleButtons := []
    hasPriceEl := true
    hasCardInput := true
    hasOrderSummary := true
    nameSelTexts := []
    priceSelEls := []
    imageSelSrcs := [] }

/-- A page showing no signal class. -/
def pageNoSignals : Page :=
  { url := "https://example.com/blog/post"
    host := "example.com"
    title := "A blog"
    buttons := [⟨"Read more", "", "", 80, 20⟩]
    extraRoleButtons := []
    hasPriceEl := false
    hasCardInput := false
    hasOrderSummary := false
    nameSelTexts := []
    priceSelEls := []
    imageSelSrcs := [] }

end PauseBuy

namespace PauseBuy

/-! ## Helper lemmas -/

/-- Bounds of the URL sub-score. -/
theorem getUrlScore_le (pg : Page) : getUrlScore pg ≤ 30 := by
  unfold getUrlScore; split <;> omega

/-- Bounds of the button sub-score. -/
theorem getButtonScore_le (pg : Page) : getButtonScore pg ≤ 40 := by
  unfold getButtonScore; split <;> omega

/-- Bounds of the DOM sub-score. -/
theorem getDomScore_le (pg : Page) : getDomScore pg ≤ 30 :=
  Nat.min_le_right _ _

end PauseBuy

namespace PauseBuy

/-- C1: the confidence score is the sum of three independently capped
sub-scores — URL 30-or-0 on a checkout-pattern match, button 40-or-0 on
a purchase-phrase match, DOM `min(10·price + 15·card + 5·summary, 30)` —
so the total is in `[0, 100]`, a page with all signals scores exactly
100, and a page with none scores 0. -/
theorem claim_C1 (pg : Page) :
    totalScore pg = getUrlScore pg + getButtonScore pg + getDomScore pg ∧
    getUrlScore pg =
      (if CHECKOUT_URL_PATTERNS.any (fun p => patTest p (lowerChars pg.url))
       then 30 else 0) ∧
    getButtonScore pg =
      (if pg.buttons.any isPurchaseButton then 40 else 0) ∧
    getDomScore pg =
      min ((if pg.hasPriceEl then 10 else 0) +
           (if pg.hasCardInput then 15 else 0) +
           (if pg.hasOrderSummary then 5 else 0)) 30 ∧
    totalScore pg ≤ 100 ∧
    (CHECKOUT_URL_PATTERNS.any (fun p => patTest p (lowerChars pg.url)) = true →
      pg.buttons.any isPurchaseButton = true →
      pg.hasPriceEl = true → pg.hasCardInput = true →
      pg.hasOrderSummary = true → totalScore pg = 100) ∧
    (CHECKOUT_URL_PATTERNS.any (fun p => patTest p (lowerChars pg.url)) = false →
      pg.buttons.any isPurchaseButton = false →
      pg.hasPriceEl = false → pg.hasCardInput = false →
      pg.hasOrderSummary = false → totalScore pg = 0) := by
  refine ⟨rfl, rfl, rfl, rfl, ?_, ?_, ?_⟩
  · have h1 := getUrlScore_le pg
    have h2 := getButtonScore_le pg
    have h3 := getDomScore_le pg
    unfold totalScore
    omega
  · intro h1 h2 h3 h4 h5
    simp [totalScore, getUrlScore, getButtonScore, getDomScore, h1, h2, h3, h4, h5]
  · intro h1 h2 h3 h4 h5
    simp [totalScore, getUrlScore, getButtonScore, getDomScore, h1, h2, h3, h4, h5]

/-- C1 witness: the all-signal page scores 100, the no-signal page 0. -/
theorem claim_C1_witness :
    totalScore pageAllSignals = 100 ∧ totalScore pageNoSignals = 0 :=
  ⟨(claim_C1 pageAllSignals).2.2.2.2.2.1 (by decide) (by decide) rfl rfl rfl,
   (claim_C1 pageNoSignals).2.2.2.2.2.2 (by decide) (by decide) rfl rfl rfl⟩

/-- With the early-return guards out of the way, the automatic detection
sends its message exactly at total score 60 or more. -/
theorem autoDetect_trigger (s : DetState) (pg : Page) (now : Nat)
    (hhandled : s.handledUrl ≠ some pg.url)
    (hsup : isSuppressed s now = false)
    (hdeb : AUTO_DETECT_DEBOUNCE_MS ≤ now - s.lastAutoDetection) :
    (autoDetectPurchaseIntent s pg now).1 =
      (if 60 ≤ totalScore pg then some ⟨pageSite pg, totalScore pg⟩
       else none) := by
  unfold autoDetectPurchaseIntent
  rw [if_neg hhandled, if_neg (by simp [hsup]), if_neg (Nat.not_lt.mpr hdeb)]
  by_cases h : 60 ≤ totalScore pg <;> simp [h]

/-- C2: an automatic detection attempt on an unhandled URL, outside
suppression and past the 2-second debounce, sends a `PURCHASE_DETECTED`
message exactly when the total confidence score is at least 60. -/
theorem claim_C2 (s : DetState) (pg : Page) (now : Nat)
    (hhandled : s.handledUrl ≠ some pg.url)
    (hsup : isSuppressed s now = false)
    (hdeb : AUTO_DETECT_DEBOUNCE_MS ≤ now - s.lastAutoDetection) :
    (autoDetectPurchaseIntent s pg now).1 =
      (if 60 ≤ totalScore pg then some ⟨pageSite pg, totalScore pg⟩
       else none) :=
  autoDetect_trigger s pg now hhandled hsup hdeb

/-- C2 witness: on the all-signal page (score 100) the fresh state sends
a message at `now = 2000`; on the no-signal page (score 0) it does not. -/
theorem claim_C2_witness :
    (autoDetectPurchaseIntent initDetState pageAllSignals 2000).1 =
      some ⟨"www.amazon.com", 100⟩ ∧
    (autoDetectPurchaseIntent initDetState pageNoSignals 2000).1 = none := by
  constructor
  · rw [claim_C2 initDetState pageAllSignals 2000 (by decide) (by decide)
        (by decide)]
    decide
  · rw [claim_C2 initDetState pageNoSignals 2000 (by decide) (by decide)
        (by decide)]
    decide

end PauseBuy

namespace PauseBuy

/-- C3: the coordinator's policy checks run in the fixed order
enabled → quiet hours (wraparound included) → site list (substring on
the hostname, empty list allows all) → `confidence ≥ 50`; the first
failing check returns `{blocked: false}` with its reason code and leaves
the state (hence the history) untouched, and when all pass a pending
event carrying the fresh identifier is appended and
`{blocked: true, eventId, questions, goalImpact, riskLevel}` is
returned. -/
theorem claim_C3 (st : BgState) (msg : PurchaseDetectedMessage)
    (currentHour : Nat) (newId : String) (resp : ReflectionResponse)
    (nowIso : String) :
    (st.enabled = false →
      handlePurchaseDetected st msg currentHour newId resp nowIso =
        (notBlocked "extension_disabled", st)) ∧
    (st.enabled = true → quietHoursActive st currentHour = true →
      handlePurchaseDetected st msg currentHour newId resp nowIso =
        (notBlocked "quiet_hours", st)) ∧
    (st.enabled = true → quietHoursActive st currentHour = false →
      siteNotEnabledGuard st msg.site = true →
      handlePurchaseDetected st msg currentHour newId resp nowIso =
        (notBlocked "site_not_enabled", st)) ∧
    (st.enabled = true → quietHoursActive st currentHour = false →
      siteNotEnabledGuard st msg.site = false → msg.confidence < 50 →
      handlePurchaseDetected st msg currentHour newId resp nowIso =
        (notBlocked "low_confidence", st)) ∧
    (∀ se, st.settings = some se → se.enabledSites = [] →
      siteNotEnabledGuard st msg.site = false) ∧
    (st.enabled = true → quietHoursActive st currentHour = false →
      siteNotEnabledGuard st msg.site = false → 50 ≤ msg.confidence →
      handlePurchaseDetected st msg currentHour newId resp nowIso =
        ({ blocked := true, reason := none, eventId := some newId,
           questions := some resp.questions, goalImpact := resp.goalImpact,
           riskLevel := some resp.riskLevel },
         { st with purchaseHistory :=
             st.purchaseHistory ++ [pendingEvent msg newId resp nowIso] }) ∧
      (pendingEvent msg newId resp nowIso).outcome = .pending ∧
      (pendingEvent msg newId resp nowIso).id = newId ∧
      (pendingEvent msg newId resp nowIso).eventId = newId) := by
  refine ⟨?_, ?_, ?_, ?_, ?_, ?_⟩
  · intro h; simp [handlePurchaseDetected, h]
  · intro h1 h2; simp [handlePurchaseDetected, h1, h2]
  · intro h1 h2 h3; simp [handlePurchaseDetected, h1, h2, h3]
  · intro h1 h2 h3 h4; simp [handlePurchaseDetected, h1, h2, h3, h4]
  · intro se h1 h2; simp [siteNotEnabledGuard, h1, h2]
  · intro h1 h2 h3 h4
    refine ⟨?_, rfl, rfl, rfl⟩
    simp [handlePurchaseDetected, h1, h2, h3, Nat.not_lt.mpr h4]

/-- Concrete coordinator state for the C3 witness. -/
def stC3 : BgState :=
  { enabled := true,
    settings := some ⟨3, ["amazon.com"], none, true⟩,
    purchaseHistory := [], stats := ⟨0, 0, 0⟩ }

/-- Concrete detection message for the C3 witness. -/
def msgC3 : PurchaseDetectedMessage :=
  ⟨⟨"Widget", 50, "general", "https://www.amazon.com/dp/1"⟩,
   "www.amazon.com", 100⟩

/-- Concrete reflection response for the C3 witness. -/
def respC3 : ReflectionResponse :=
  { questions := ["Do you need this right now, or can it wait a few days?"],
    goalImpact := none, riskLevel := .low,
    meta := some ⟨"local", "ts", "fallback", none⟩ }

/-- C3 witness: with all checks passing, the coordinator blocks, returns
the fresh identifier and appends the pending event. -/
theorem claim_C3_witness :
    handlePurchaseDetected stC3 msgC3 10 "id-1" respC3 "ts" =
      ({ blocked := true, reason := none, eventId := some "id-1",
         questions := some respC3.questions, goalImpact := respC3.goalImpact,
         riskLevel := some respC3.riskLevel },
       { stC3 with purchaseHistory :=
           stC3.purchaseHistory ++ [pendingEvent msgC3 "id-1" respC3 "ts"] }) ∧
    (pendingEvent msgC3 "id-1" respC3 "ts").outcome = .pending :=
  ⟨((claim_C3 stC3 msgC3 10 "id-1" respC3 "ts").2.2.2.2.2 rfl (by decide)
      (by decide) (by decide)).1,
   ((claim_C3 stC3 msgC3 10 "id-1" respC3 "ts").2.2.2.2.2 rfl (by decide)
      (by decide) (by decide)).2.1⟩

end PauseBuy

namespace PauseBuy

/-- Shield registration never removes an entry. -/
theorem shieldLoop_mem_of_mem {a : Nat} :
    ∀ (l : List (Nat × Btn)) (acc : List Nat), a ∈ acc → a ∈ shieldLoop acc l := by
  intro l
  induction l with
  | nil => intro acc h; simpa [shieldLoop] using h
  | cons hd tl ih =>
      intro acc h
      obtain ⟨i, b⟩ := hd
      unfold shieldLoop
      split
      · exact ih acc h
      · split
        · exact ih acc h
        · exact ih (acc ++ [i]) (List.mem_append_left _ h)

/-- After one pass, every visible matched button is registered. -/
theorem shieldLoop_covers {i : Nat} {b : Btn} :
    ∀ (l : List (Nat × Btn)) (acc : List Nat),
      (i, b) ∈ l → zeroRect b = false → i ∈ shieldLoop acc l := by
  intro l
  induction l with
  | nil => intro acc h; simp at h
  | cons hd tl ih =>
      intro acc hmem hvis
      obtain ⟨j, c⟩ := hd
      rcases List.mem_cons.mp hmem with heq | htl
      · obtain ⟨h1, h2⟩ := Prod.mk.injEq .. ▸ heq
        subst h1; subst h2
        unfold shieldLoop
        split
        · exact shieldLoop_mem_of_mem tl acc (by assumption)
        · rw [hvis]
          simp only [Bool.false_eq_true, if_false]
          exact shieldLoop_mem_of_mem tl (acc ++ [i])
            (List.mem_append_right _ (List.mem_singleton.mpr rfl))
      · unfold shieldLoop
        split
        · exact ih acc htl hvis
        · split
          · exact ih acc htl hvis
          · exact ih (acc ++ [j]) htl hvis

/-- If every visible matched button is already registered, the loop is a
no-op. -/
theorem shieldLoop_fixed :
    ∀ (l : List (Nat × Btn)) (acc : List Nat),
      (∀ i b, (i, b) ∈ l → zeroRect b = false → i ∈ acc) →
      shieldLoop acc l = acc := by
  intro l
  induction l with
  | nil => intro acc _; rfl
  | cons hd tl ih =>
      intro acc h
      obtain ⟨i, b⟩ := hd
      unfold shieldLoop
      split
      · exact ih acc (fun j c hm hv => h j c (List.mem_cons_of_mem _ hm) hv)
      · rename_i hnot
        split
        · exact ih acc (fun j c hm hv => h j c (List.mem_cons_of_mem _ hm) hv)
        · rename_i hvis
          exact absurd (h i b (List.mem_cons_self _ _)
            (Bool.not_eq_true _ ▸ hvis)) hnot

/-- The registration loop is idempotent on the registry. -/
theorem shieldLoop_idem (l : List (Nat × Btn)) (acc : List Nat) :
    shieldLoop (shieldLoop acc l) l = shieldLoop acc l :=
  shieldLoop_fixed l _ (fun _ _ hm hv => shieldLoop_covers l acc hm hv)

/-- Starting from a registry disjoint from the (duplicate-free) matched
indices, the loop appends exactly the visible matched indices in order. -/
theorem shieldLoop_eq_append :
    ∀ (l : List (Nat × Btn)) (acc : List Nat),
      (l.map Prod.fst).Nodup →
      (∀ i, i ∈ l.map Prod.fst → i ∉ acc) →
      shieldLoop acc l =
        acc ++ (l.filter (fun ib => !zeroRect ib.2)).map Prod.fst := by
  intro l
  induction l with
  | nil => intro acc _ _; simp [shieldLoop]
  | cons hd tl ih =>
      intro acc hnd hdisj
      obtain ⟨i, b⟩ := hd
      have hi : i ∉ acc := hdisj i (by simp)
      have hnd' : (tl.map Prod.fst).Nodup := (List.nodup_cons.mp hnd).2
      have hihd : i ∉ tl.map Prod.fst := (List.nodup_cons.mp hnd).1
      unfold shieldLoop
      rw [if_neg hi]
      by_cases hz : zeroRect b = true
      · rw [if_pos hz]
        rw [ih acc hnd' (fun j hj => hdisj j (by simp [hj]))]
        simp [List.filter_cons, hz]
      · rw [if_neg hz]
        rw [ih (acc ++ [i]) hnd' ?_]
        · rw [List.filter_cons]
          simp only [Bool.not_eq_true] at hz
          simp [hz, List.append_assoc]
        · intro j hj
          simp only [List.mem_append, List.mem_singleton]
          rintro (hja | rfl)
          · exact hdisj j (by simp [hj]) hja
          · exact hihd hj

/-- The indices produced by `findPurchaseButtons` are duplicate-free. -/
theorem findPurchaseButtons_fst_nodup (pg : Page) :
    ((findPurchaseButtons pg).map Prod.fst).Nodup := by
  have hsub : List.Sublist ((findPurchaseButtons pg).map Prod.fst)
      ((clickables pg).enum.map Prod.fst) :=
    List.Sublist.map _ (List.filter_sublist _)
  rw [List.enum_map_fst] at hsub
  exact List.Nodup.sublist hsub (List.nodup_range _)

/-- With duplicate-free first components, a pair's second component is
determined by its first. -/
theorem snd_unique_of_fst_nodup :
    ∀ {l : List (Nat × Btn)}, (l.map Prod.fst).Nodup →
      ∀ {i : Nat} {b b' : Btn}, (i, b) ∈ l → (i, b') ∈ l → b = b' := by
  intro l
  induction l with
  | nil => intro _ i b b' h; simp at h
  | cons hd tl ih =>
      intro hnd i b b' h1 h2
      obtain ⟨j, c⟩ := hd
      have hjtl : j ∉ tl.map Prod.fst := (List.nodup_cons.mp hnd).1
      rcases List.mem_cons.mp h1 with he1 | ht1 <;>
        rcases List.mem_cons.mp h2 with he2 | ht2
      · rw [Prod.mk.injEq] at he1 he2
        rw [he1.2, he2.2]
      · rw [Prod.mk.injEq] at he1
        exact absurd (he1.1 ▸ List.mem_map_of_mem Prod.fst ht2) hjtl
      · rw [Prod.mk.injEq] at he2
        exact absurd (he2.1 ▸ List.mem_map_of_mem Prod.fst ht1) hjtl
      · exact ih (List.nodup_cons.mp hnd).2 ht1 ht2

/-- C4: shielding is idempotent — a second `shieldPurchaseButtons` run
leaves the shield registry unchanged; from a shield-free state on an
unhandled URL one run registers exactly one shield per matched visible
button (each exactly once), and a matched button with a zero-area
bounding box is never shielded. -/
theorem claim_C4 (s : DetState) (pg : Page) :
    (shieldPurchaseButtons (shieldPurchaseButtons s pg) pg).shields =
      (shieldPurchaseButtons s pg).shields ∧
    (s.handledUrl ≠ some pg.url → s.shields = [] →
      (shieldPurchaseButtons s pg).shields =
        ((findPurchaseButtons pg).filter (fun ib => !zeroRect ib.2)).map
          Prod.fst ∧
      (shieldPurchaseButtons s pg).shields.Nodup) ∧
    (∀ i b, (i, b) ∈ findPurchaseButtons pg → zeroRect b = true →
      s.shields = [] → i ∉ (shieldPurchaseButtons s pg).shields) := by
  have hchar : s.handledUrl ≠ some pg.url → s.shields = [] →
      (shieldPurchaseButtons s pg).shields =
        ((findPurchaseButtons pg).filter (fun ib => !zeroRect ib.2)).map
          Prod.fst := by
    intro hh hs
    unfold shieldPurchaseButtons
    rw [if_neg hh]
    simp only [hs]
    rw [shieldLoop_eq_append _ [] (findPurchaseButtons_fst_nodup pg)
      (by simp)]
    simp
  refine ⟨?_, ?_, ?_⟩
  · by_cases hh : s.handledUrl = some pg.url
    · simp [shieldPurchaseButtons, hh]
    · simp only [shieldPurchaseButtons, if_neg hh]
      simp [shieldLoop_idem]
  · intro hh hs
    refine ⟨hchar hh hs, ?_⟩
    rw [hchar hh hs]
    have hsub : List.Sublist (((findPurchaseButtons pg).filter
        (fun ib => !zeroRect ib.2)).map Prod.fst)
        ((findPurchaseButtons pg).map Prod.fst) :=
      List.Sublist.map _ (List.filter_sublist _)
    exact (findPurchaseButtons_fst_nodup pg).sublist hsub
  · intro i b hmem hz hs
    by_cases hh : s.handledUrl = some pg.url
    · unfold shieldPurchaseButtons
      rw [if_pos hh, hs]
      simp
    · rw [hchar hh hs]
      intro hin
      obtain ⟨⟨i', b'⟩, hin', heq⟩ := List.mem_map.mp hin
      obtain ⟨hmem', hvis'⟩ := List.mem_filter.mp hin'
      simp only at heq
      subst heq
      have : b = b' := snd_unique_of_fst_nodup
        (findPurchaseButtons_fst_nodup pg) hmem hmem'
      rw [← this] at hvis'
      rw [hz] at hvis'
      simp at hvis'

/-- Concrete page for the C4 witness: a visible matched button (index 0),
a non-matching button (index 1) and a zero-area matched button
(index 2). -/
def pgC4 : Page :=
  { url := "https://shop.example.com/item"
    host := "shop.example.com"
    title := "Item"
    buttons := [⟨"Buy Now", "", "", 120, 40⟩, ⟨"Read reviews", "", "", 90, 20⟩,
                ⟨"Checkout", "", "", 0, 0⟩]
    extraRoleButtons := []
    hasPriceEl := false, hasCardInput := false, hasOrderSummary := false
    nameSelTexts := [], priceSelEls := [], imageSelSrcs := [] }

/-- C4 witness: on the concrete page, two runs leave exactly the shield
registry `[0]` — one shield for the visible matched button — and the
zero-area matched button (index 2) is not shielded. -/
theorem claim_C4_witness :
    (shieldPurchaseButtons initDetState pgC4).shields = [0] ∧
    (shieldPurchaseButtons (shieldPurchaseButtons initDetState pgC4)
        pgC4).shields = [0] ∧
    2 ∉ (shieldPurchaseButtons initDetState pgC4).shields := by
  have h2 := ((claim_C4 initDetState pgC4).2.1 (by decide) rfl).1
  have h1 : (shieldPurchaseButtons initDetState pgC4).shields = [0] := by
    rw [h2]; decide
  refine ⟨h1, ?_, ?_⟩
  · rw [(claim_C4 initDetState pgC4).1, h1]
  · exact (claim_C4 initDetState pgC4).2.2 2 ⟨"Checkout", "", "", 0, 0⟩
      (by decide) (by decide) rfl

end PauseBuy

namespace PauseBuy

/-- C5: `PROCEED_WITH_PURCHASE` records a suppression window expiring
30 seconds later in session state; while a state carries that window and
the clock is strictly before its expiry, an automatic detection sends
nothing and a shield click (outside the overlay/handled guard) passes
straight through — shields removed, underlying button clicked; once the
clock reaches the expiry, a matching detection triggers normally
again. -/
theorem claim_C5 (s s' : DetState) (url : String) (pg : Page)
    (now t btn : Nat) :
    (onProceedWithPurchase s url now).proceedUntil =
      some (now + SUPPRESSION_MS) ∧
    (s'.proceedUntil = some (now + SUPPRESSION_MS) →
      t < now + SUPPRESSION_MS →
      (autoDetectPurchaseIntent s' pg t).1 = none ∧
      (s'.overlayActive = false → s'.handledUrl ≠ some pg.url →
        shieldClick s' pg btn t =
          (.passThrough, { s' with shields := [] }))) ∧
    (s'.proceedUntil = some (now + SUPPRESSION_MS) →
      now + SUPPRESSION_MS ≤ t →
      s'.handledUrl ≠ some pg.url →
      AUTO_DETECT_DEBOUNCE_MS ≤ t - s'.lastAutoDetection →
      60 ≤ totalScore pg →
      (autoDetectPurchaseIntent s' pg t).1 =
        some ⟨pageSite pg, totalScore pg⟩) := by
  refine ⟨rfl, ?_, ?_⟩
  · intro hp ht
    have hsup : isSuppressed s' t = true := by
      unfold isSuppressed
      rw [hp]
      simpa using ht
    constructor
    · by_cases hh : s'.handledUrl = some pg.url
      · simp [autoDetectPurchaseIntent, hh]
      · simp [autoDetectPurchaseIntent, hh, hsup]
    · intro hov hh
      unfold shieldClick
      rw [if_neg (by simp [hov, hh]), if_pos hsup]
  · intro hp ht hh hdeb hscore
    have hsup : isSuppressed s' t = false := by
      unfold isSuppressed
      rw [hp]
      simpa using Nat.not_lt.mpr ht
    rw [autoDetect_trigger s' pg t hh hsup hdeb, if_pos hscore]

/-- The state after the user proceeds, for the C5 witness. -/
def sC5 : DetState :=
  onProceedWithPurchase initDetState "https://shop.example.com/pay" 1000

/-- C5 witness: proceeding at `t = 1000` stores expiry 31000; at
`t = 5000` the automatic detection on the all-signal page is skipped and
a shield click passes through; at `t = 31000` the automatic detection
sends the message again. -/
theorem claim_C5_witness :
    sC5.proceedUntil = some 31000 ∧
    (autoDetectPurchaseIntent sC5 pageAllSignals 5000).1 = none ∧
    shieldClick sC5 pageAllSignals 3 5000 =
      (.passThrough, { sC5 with shields := [] }) ∧
    (autoDetectPurchaseIntent sC5 pageAllSignals 31000).1 =
      some ⟨"www.amazon.com", 100⟩ := by
  have h := claim_C5 initDetState sC5 "https://shop.example.com/pay"
    pageAllSignals 1000 5000 3
  have h31 := claim_C5 initDetState sC5 "https://shop.example.com/pay"
    pageAllSignals 1000 31000 3
  refine ⟨h.1, (h.2.1 rfl (by decide)).1, (h.2.1 rfl (by decide)).2 rfl
    (by decide), ?_⟩
  have := h31.2.2 rfl (by decide) (by decide) (by decide) (by decide)
  rw [this]
  decide

end PauseBuy

namespace PauseBuy

/-- Every failure path of `callProxyAPI` returns `createFallbackResponse`
with some error string. -/
theorem callProxyAPI_fallback (product : Product) (ctx : ReflectionContext)
    (impact : Option GoalImpact) (shuffled : List String) (nowIso : String)
    (fetch : FetchOutcome) (hfail : isFetchFailure fetch = true) :
    ∃ m, callProxyAPI product ctx impact shuffled nowIso fetch =
      createFallbackResponse product ctx impact shuffled nowIso (some m) := by
  cases fetch with
  | netError m => exact ⟨m, rfl⟩
  | http status body =>
      dsimp only [callProxyAPI]
      by_cases h1 : (status == 429) = true
      · rw [if_pos h1]
        exact ⟨"rate_limit_exceeded", rfl⟩
      · rw [if_neg (by simp [h1])]
        by_cases h2 : (!(200 ≤ status && status ≤ 299)) = true
        · rw [if_pos h2]
          exact ⟨"api_error_" ++ toString status, rfl⟩
        · rw [if_neg (by simp_all)]
          cases body with
          | ok data =>
              exfalso
              unfold isFetchFailure at hfail
              simp [h1] at hfail h2
              omega
          | error m => exact ⟨m, rfl⟩

/-- C6: on every proxy failure (429, other non-2xx, unparseable body or
network error) the client returns — it is a total function — a response
tagged `source: "fallback"` with a reason string, whose questions are
distinct members of the fixed 5-question pool, 3 of them when
`frictionLevel ≥ 4` and 2 otherwise. -/
theorem claim_C6 (product : Product) (ctx : ReflectionContext)
    (impact : Option GoalImpact) (shuffled : List String) (nowIso : String)
    (fetch : FetchOutcome) (hperm : shuffled.Perm FALLBACK_QUESTIONS)
    (hfail : isFetchFailure fetch = true) :
    (∃ m, (callProxyAPI product ctx impact shuffled nowIso fetch).meta =
      some ⟨"local", nowIso, "fallback", some m⟩) ∧
    (callProxyAPI product ctx impact shuffled nowIso fetch).questions.length =
      (if ctx.frictionLevel ≥ 4 then 3 else 2) ∧
    (callProxyAPI product ctx impact shuffled nowIso fetch).questions.Nodup ∧
    (∀ q ∈ (callProxyAPI product ctx impact shuffled nowIso fetch).questions,
      q ∈ FALLBACK_QUESTIONS) := by
  obtain ⟨m, hm⟩ :=
    callProxyAPI_fallback product ctx impact shuffled nowIso fetch hfail
  rw [hm]
  have hlen5 : shuffled.length = 5 := by
    rw [hperm.length_eq]; rfl
  have hnd : shuffled.Nodup := hperm.nodup_iff.mpr (by decide)
  refine ⟨⟨m, rfl⟩, ?_, ?_, ?_⟩
  · simp only [createFallbackResponse, getRandomFallbackQuestions,
      List.length_take, hlen5]
    split <;> rfl
  · exact List.Nodup.sublist (List.take_sublist _ _) hnd
  · intro q hq
    have hq' : q ∈ shuffled :=
      List.take_subset _ _ hq
    exact hperm.mem_iff.mp hq'

/-- C6 witness: on a thrown network error with friction level 3 the
fallback carries 2 distinct pool questions; on an HTTP 500 with friction
level 5 it carries 3. -/
theorem claim_C6_witness :
    ((∃ m, (callProxyAPI ⟨"W", 20, "general", "u"⟩ ⟨.morning, none, 0, 3⟩
        none FALLBACK_QUESTIONS "ts" (.netError "fetch failed")).meta =
        some ⟨"local", "ts", "fallback", some m⟩) ∧
      (callProxyAPI ⟨"W", 20, "general", "u"⟩ ⟨.morning, none, 0, 3⟩
        none FALLBACK_QUESTIONS "ts" (.netError "fetch failed")).questions.length = 2 ∧
      (callProxyAPI ⟨"W", 20, "general", "u"⟩ ⟨.morning, none, 0, 3⟩
        none FALLBACK_QUESTIONS "ts" (.netError "fetch failed")).questions.Nodup ∧
      (∀ q ∈ (callProxyAPI ⟨"W", 20, "general", "u"⟩ ⟨.morning, none, 0, 3⟩
        none FALLBACK_QUESTIONS "ts" (.netError "fetch failed")).questions,
        q ∈ FALLBACK_QUESTIONS)) ∧
    (callProxyAPI ⟨"W", 20, "general", "u"⟩ ⟨.morning, none, 0, 5⟩
      none FALLBACK_QUESTIONS "ts"
      (.http 500 (.error "bad json"))).questions.length = 3 :=
  ⟨claim_C6 ⟨"W", 20, "general", "u"⟩ ⟨.morning, none, 0, 3⟩ none
      FALLBACK_QUESTIONS "ts" (.netError "fetch failed")
      (List.Perm.refl _) rfl,
   (claim_C6 ⟨"W", 20, "general", "u"⟩ ⟨.morning, none, 0, 5⟩ none
      FALLBACK_QUESTIONS "ts" (.http 500 (.error "bad json"))
      (List.Perm.refl _) (by decide)).2.1⟩

end PauseBuy

namespace PauseBuy

/-- C7 counterexample: at price 100, morning, zero recent purchases and
friction level 4, the extension's local classifier scores 1 (`low`)
while the proxy's classifier adds the friction bump and scores 2
(`medium`) — the two classifiers are not identical. -/
theorem claim_C7_counterexample :
    determineLocalRiskLevel ⟨"Item", 100, "general", "u"⟩
        ⟨.morning, none, 0, 4⟩ = .low ∧
    determineRiskLevel ⟨"Item", 100, "general", "u"⟩ .morning 0 4 = .medium ∧
    determineLocalRiskLevel ⟨"Item", 100, "general", "u"⟩
        ⟨.morning, none, 0, 4⟩ ≠
      determineRiskLevel ⟨"Item", 100, "general", "u"⟩ .morning 0 4 := by
  refine ⟨by decide, by decide, by decide⟩

/-- C7 amended: the two classifiers share the time-of-day, purchase-count
and price terms, but only the proxy's adds 1 for `frictionLevel ≥ 4`;
whenever the friction level is below 4 they agree exactly. -/
theorem claim_C7_amended (product : Product) (ctx : ReflectionContext)
    (h : ctx.frictionLevel < 4) :
    determineLocalRiskLevel product ctx =
      determineRiskLevel product ctx.timeOfDay ctx.recentPurchaseCount
        ctx.frictionLevel := by
  simp only [determineLocalRiskLevel, determineRiskLevel]
  rw [if_neg (by omega : ¬ ctx.frictionLevel ≥ 4), Nat.add_zero]

/-- C7 witness: at friction level 3 the classifiers agree (here both
`high`: late night +2, two recent purchases +1, price 100 +1). -/
theorem claim_C7_witness :
    determineLocalRiskLevel ⟨"Item", 100, "general", "u"⟩
        ⟨.late_night, none, 2, 3⟩ =
      determineRiskLevel ⟨"Item", 100, "general", "u"⟩ .late_night 2 3 :=
  claim_C7_amended ⟨"Item", 100, "general", "u"⟩ ⟨.late_night, none, 2, 3⟩
    (by decide)

end PauseBuy

namespace PauseBuy

/-- History entry for the C8 evidence: a pending event of price 50. -/
def evC8 : HistEvent :=
  { id := "e1", eventId := "e1",
    product := some ⟨"Gadget", 50, "general", "u"⟩,
    site := some "shop.example.com", confidence := some 100,
    timestampIso := "t0", riskLevel := some .low, questionsAsked := [],
    reflectionTime := 0, outcome := .pending, source := some "fallback" }

/-- Coordinator state for the C8 evidence. -/
def stC8 : BgState :=
  { enabled := true, settings := none, purchaseHistory := [evC8],
    stats := ⟨0, 0, 0⟩ }

/-- The outcome message resolved twice in the C8 evidence. -/
def msgC8 : OutcomeMessage := ⟨"e1", .saved, 12⟩

/-- C8 evidence: `handlePurchaseOutcome` has no already-resolved guard —
resolving the same `eventId` twice with outcome `saved` finds the (now
already `saved`) event again and credits its price a second time:
`savedTotal` and `savedToday` reach 100 for a price-50 product, where
the claim requires them to stay at 50. -/
theorem claim_C8_evidence :
    (handlePurchaseOutcome stC8 msgC8 "t1").1 = 50 ∧
    ((handlePurchaseOutcome stC8 msgC8 "t1").2).stats.savedTotal = 50 ∧
    ((handlePurchaseOutcome (handlePurchaseOutcome stC8 msgC8 "t1").2 msgC8
        "t2").2).stats.savedTotal = 100 ∧
    ((handlePurchaseOutcome (handlePurchaseOutcome stC8 msgC8 "t1").2 msgC8
        "t2").2).stats.savedToday = 100 := by
  refine ⟨?_, ?_, ?_, ?_⟩ <;>
    · simp [handlePurchaseOutcome, resolveFirst, stC8, msgC8, evC8]
      try norm_num

end PauseBuy

namespace PauseBuy

/-- The name rule as C9 states it: the text of the first selector with
non-empty trimmed text (truncation and fallbacks as in the source). -/
def nameRuleAsClaimed : List (Option String) → Option (List Char)
  | [] => none
  | r :: rs =>
      match r with
      | some raw =>
          let t := trimChars raw.data
          if t ≠ [] then some t else nameRuleAsClaimed rs
      | none => nameRuleAsClaimed rs

/-- The claimed extracted name: first non-empty trimmed selector text,
else cleaned title, truncated to 200. -/
def specNameC9 (pg : Page) : List Char :=
  ((nameRuleAsClaimed pg.nameSelTexts).getD (cleanTitle pg.title)).take 200

/-- Comma-stripping as C9 states it: all commas removed. -/
def removeAllCommas (cs : List Char) : List Char := cs.filter (fun c => c ≠ ',')

/-- The price rule as C9 states it: first selector whose text parses
(all commas stripped) to a positive decimal, else 0. -/
def priceRuleAsClaimed : List (Option PriceEl) → ℚ
  | [] => 0
  | el :: rest =>
      match extractNum (priceElText el).data with
      | some m =>
          match parseFloatQ (removeAllCommas m) with
          | some v => if 0 < v then v else priceRuleAsClaimed rest
          | none => priceRuleAsClaimed rest
      | none => priceRuleAsClaimed rest

/-- Page whose first name selector holds the 1-character text "X". -/
def pgC9a : Page :=
  { url := "u", host := "h", title := "Fallback Title - site",
    buttons := [], extraRoleButtons := [], hasPriceEl := false,
    hasCardInput := false, hasOrderSummary := false,
    nameSelTexts := [some "X"], priceSelEls := [], imageSelSrcs := [] }

/-- Page whose first price selector shows a double-comma price. -/
def pgC9b : Page :=
  { url := "u", host := "h", title := "t",
    buttons := [], extraRoleButtons := [], hasPriceEl := false,
    hasCardInput := false, hasOrderSummary := false,
    nameSelTexts := [], imageSelSrcs := [],
    priceSelEls := [some ⟨some "1,234,567", none, none, none⟩] }

/-- C9 counterexample: the source skips a selector whose trimmed text
"X" is non-empty (it requires length in (1, 300)) and falls back to the
cleaned title, and it removes only the first comma before `parseFloat`,
so "1,234,567" yields 1234 instead of the comma-stripped 1234567 — both
against the claim's reading. -/
theorem claim_C9_counterexample :
    trimChars "X".data ≠ [] ∧
    specNameC9 pgC9a = "X".data ∧
    (extractProductInfo pgC9a).name = "Fallback Title".data ∧
    (extractProductInfo pgC9a).name ≠ specNameC9 pgC9a ∧
    (extractProductInfo pgC9b).price = 1234 ∧
    priceRuleAsClaimed pgC9b.priceSelEls = 1234567 ∧
    (extractProductInfo pgC9b).price ≠ priceRuleAsClaimed pgC9b.priceSelEls := by
  have hp1 : (extractProductInfo pgC9b).price = 1234 := by
    simp [extractProductInfo, firstSelPrice, priceElText, extractNum,
      isDigitOrComma, numRunAt, removeFirstComma, parseFloatQ, digitsToNat,
      pgC9b]
  have hp2 : priceRuleAsClaimed pgC9b.priceSelEls = 1234567 := by
    simp [priceRuleAsClaimed, priceElText, extractNum, isDigitOrComma,
      numRunAt, removeAllCommas, parseFloatQ, digitsToNat, pgC9b]
  refine ⟨by decide, by decide, by decide, by decide, hp1, hp2, ?_⟩
  rw [hp1, hp2]
  norm_num

/-- `firstSelName` as a `findSome?` over the selector results. -/
theorem firstSelName_eq_findSome (l : List (Option String)) :
    firstSelName l = l.findSome? (fun r => r.bind (fun raw =>
      let t := trimChars raw.data
      if 1 < t.length ∧ t.length < 300 then some t else none)) := by
  induction l with
  | nil => rfl
  | cons r rs ih =>
      cases r with
      | none => simpa [firstSelName, List.findSome?_cons] using ih
      | some raw =>
          simp only [firstSelName, List.findSome?_cons, Option.some_bind]
          by_cases hc : 1 < (trimChars raw.data).length ∧
              (trimChars raw.data).length < 300
          · simp [hc]
          · simp [hc, ih]

/-- `firstSelPrice` as a `findSome?` over the selector results. -/
theorem firstSelPrice_eq_findSome (l : List (Option PriceEl)) :
    firstSelPrice l = (l.findSome? (fun el =>
      (extractNum (priceElText el).data).bind (fun m =>
        (parseFloatQ (removeFirstComma m)).bind (fun v =>
          if 0 < v then some v else none)))).getD 0 := by
  induction l with
  | nil => rfl
  | cons el rest ih =>
      simp only [firstSelPrice, List.findSome?_cons]
      cases hm : extractNum (priceElText el).data with
      | none => simp [hm, ih]
      | some m =>
          cases hv : parseFloatQ (removeFirstComma m) with
          | none => simp [hm, hv, ih]
          | some v =>
              by_cases hpos : 0 < v
              · simp [hm, hv, hpos]
              · simp [hm, hv, hpos, ih]

/-- The extracted price is never negative. -/
theorem firstSelPrice_nonneg (l : List (Option PriceEl)) :
    0 ≤ firstSelPrice l := by
  induction l with
  | nil => exact le_refl 0
  | cons el rest ih =>
      simp only [firstSelPrice]
      cases hm : extractNum (priceElText el).data with
      | none => simpa [hm] using ih
      | some m =>
          cases hv : parseFloatQ (removeFirstComma m) with
          | none => simpa [hm, hv] using ih
          | some v =>
              by_cases hpos : 0 < v
              · simpa [hm, hv, hpos] using le_of_lt hpos
              · simpa [hm, hv, hpos] using ih

/-- C9 amended: the extractor is total (it always yields a result); the
name is the text of the first selector whose trimmed text has length
strictly between 1 and 300, truncated to 200 characters, falling back to
the cleaned page title and the "Unknown Product" sentinel; the price is
the value of the first selector whose text yields a regex match parsing
— with only the first comma removed — to a strictly positive decimal,
and 0 (never negative) when none does; the category is the constant
"general". -/
theorem claim_C9_amended (pg : Page) :
    (extractProductInfo pg).name =
      ((pg.nameSelTexts.findSome? (fun r => r.bind (fun raw =>
        let t := trimChars raw.data
        if 1 < t.length ∧ t.length < 300 then some t else none))).getD
        (cleanTitle pg.title)).take 200 ∧
    (extractProductInfo pg).name.length ≤ 200 ∧
    (extractProductInfo pg).price =
      (pg.priceSelEls.findSome? (fun el =>
        (extractNum (priceElText el).data).bind (fun m =>
          (parseFloatQ (removeFirstComma m)).bind (fun v =>
            if 0 < v then some v else none)))).getD 0 ∧
    0 ≤ (extractProductInfo pg).price ∧
    (extractProductInfo pg).category = "general" := by
  refine ⟨?_, ?_, ?_, ?_, rfl⟩
  · simp [extractProductInfo, firstSelName_eq_findSome]
  · simp only [extractProductInfo, List.length_take]
    omega
  · simp [extractProductInfo, firstSelPrice_eq_findSome]
  · exact firstSelPrice_nonneg pg.priceSelEls

end PauseBuy

namespace PauseBuy

/-- A reachable content-script state for the C10 counterexample: a shield
click is answered `blocked` (URL handled), the overlay is shown, then an
SPA navigation fires the URL poller, which clears `handledUrl` while
leaving `overlayActive` set. -/
def sC10 : DetState :=
  onUrlChange (onShowOverlay (handleShieldResponse
    ((shieldClick initDetState pgC4 0 1000).2) pgC4 true))

/-- C10 counterexample: in the reachable state `sC10` the overlay is
still active (the first prompt cycle is unresolved), yet
`autoDetectPurchaseIntent` — which never consults `overlayActive` —
sends a second `PURCHASE_DETECTED` after the SPA navigation, violating
the claimed single-outstanding-cycle guard. -/
theorem claim_C10_counterexample :
    (shieldClick initDetState pgC4 0 1000).1 =
      .sent ⟨"shop.example.com", 100⟩ ∧
    sC10.overlayActive = true ∧
    (autoDetectPurchaseIntent sC10 pageAllSignals 5000).1 =
      some ⟨"www.amazon.com", 100⟩ := by
  refine ⟨by decide, by decide, by decide⟩

/-- C10 amended: the shield click handler is guarded by both
`overlayActive` and the handled URL (it does nothing, sending no
message, when either holds), while automatic detection is guarded only
by the handled URL — it sends nothing while the current URL is handled,
but is not blocked by an active overlay after the URL changes. -/
theorem claim_C10_amended (s : DetState) (pg : Page) (btn now : Nat) :
    (s.overlayActive = true ∨ s.handledUrl = some pg.url →
      (shieldClick s pg btn now).1 = .ignored ∧
      (shieldClick s pg btn now).2 = s) ∧
    (s.handledUrl = some pg.url →
      (autoDetectPurchaseIntent s pg now).1 = none) := by
  constructor
  · intro h
    rcases h with h | h <;> constructor <;> simp [shieldClick, h]
  · intro h
    simp [autoDetectPurchaseIntent, h]

/-- C10 witness: with the overlay active a shield click is ignored, and
on a handled URL the automatic detection sends nothing. -/
theorem claim_C10_witness :
    (shieldClick (onShowOverlay initDetState) pageAllSignals 0 1000).1 =
      .ignored ∧
    (autoDetectPurchaseIntent
      (handleAutoResponse initDetState pageAllSignals true)
      pageAllSignals 3000).1 = none :=
  ⟨((claim_C10_amended (onShowOverlay initDetState) pageAllSignals 0 1000).1
      (Or.inl rfl)).1,
   (claim_C10_amended (handleAutoResponse initDetState pageAllSignals true)
      pageAllSignals 0 3000).2 rfl⟩

end PauseBuy
